import Mathlib

/-!
# Verification of the employee-management CRUD core

Shallow embedding of the request-validation and persistence-coordination
layer of the employee-management API:

* `app/models/employee.py` — `Department`, `EmployeeBase`/`EmployeeCreate`,
  `EmployeeUpdate`, response models, and the field validation performed by
  pydantic (length/range/pattern constraints followed by the `validate_name`
  field validator).
* `app/routers/employees.py` — the five endpoint handlers
  (`create_employee`, `get_all_employees`, `get_employee`,
  `update_employee`, `delete_employee`) and `get_departments`.
* `app/database.py` — the store is modelled as a list of documents with a
  unique index on `employee_id` (created in `DatabaseManager.connect`);
  `insert_one` rejects a duplicate `employee_id` atomically
  (`DuplicateKeyError`), `find_one`/`delete_one`/`update_one` act on the
  first matching document, and the `{"_id": 0}` projection strips the
  internal storage identifier.

MongoDB's internal `_id` is modelled as an `Option Nat` field `oid` on each
document: `some` when the store has assigned it, `none` after a projection
or an explicit `pop("_id", None)`.
-/

namespace EmployeeApi

/-- `Department(str, Enum)` from `app/models/employee.py`: the closed set of
ten valid department labels. -/
inductive Department where
  | ENGINEERING
  | MARKETING
  | FINANCE
  | HUMAN_RESOURCES
  | SALES
  | OPERATIONS
  | INFORMATION_TECHNOLOGY
  | LEGAL
  | CUSTOMER_SERVICE
  | RESEARCH
deriving DecidableEq, Repr

/-- The string value of each enum member (`Department.X.value`). -/
def Department.value : Department → String
  | .ENGINEERING => "Engineering"
  | .MARKETING => "Marketing"
  | .FINANCE => "Finance"
  | .HUMAN_RESOURCES => "Human Resources"
  | .SALES => "Sales"
  | .OPERATIONS => "Operations"
  | .INFORMATION_TECHNOLOGY => "Information Technology"
  | .LEGAL => "Legal"
  | .CUSTOMER_SERVICE => "Customer Service"
  | .RESEARCH => "Research and Development"

/-- All enum members, in declaration order (Python iterates an `Enum` in
declaration order, as `get_departments` does). -/
def Department.all : List Department :=
  [.ENGINEERING, .MARKETING, .FINANCE, .HUMAN_RESOURCES, .SALES,
   .OPERATIONS, .INFORMATION_TECHNOLOGY, .LEGAL, .CUSTOMER_SERVICE, .RESEARCH]

/-- `Department(s)` lookup: pydantic validates a raw string for a
`Department`-typed field by finding the member with that value, failing on
any other string. -/
def Department.fromString? (s : String) : Option Department :=
  Department.all.find? (fun d => d.value == s)

/-- A stored document.  `oid` models MongoDB's internal `_id`: `some` once
the store has assigned it, `none` after a `{"_id": 0}` projection or a
`pop("_id", None)`.  The remaining fields are the four employee fields. -/
structure Doc where
  oid : Option Nat
  employee_id : String
  name : String
  age : Int
  department : Department
deriving DecidableEq, Repr

/-- The employees collection: documents in insertion order plus the next
internal identifier the store will assign. -/
structure Store where
  docs : List Doc
  nextOid : Nat
deriving DecidableEq, Repr

/-- A validated `EmployeeCreate` model (all four fields present and already
validated, `name` already cleaned by `validate_name`). -/
structure EmployeeCreate where
  employee_id : String
  name : String
  age : Int
  department : Department
deriving DecidableEq, Repr

/-- A validated `EmployeeUpdate` model: every field optional, present
fields already validated.  `employee_id` has no counterpart here — the
model cannot express a change to it. -/
structure EmployeeUpdate where
  name : Option String
  age : Option Int
  department : Option Department
deriving DecidableEq, Repr

/-- `update_data` is empty iff every field of the parsed `EmployeeUpdate`
is `None` (`if not update_data` in `update_employee`). -/
def EmployeeUpdate.isEmpty (u : EmployeeUpdate) : Bool :=
  u.name.isNone && u.age.isNone && u.department.isNone

/-- The `HTTPException`s raised by the handlers, one constructor per raise
site, plus the 500 branch for store failures. -/
inductive ApiError where
  | conflict (employee_id : String)
  | noFieldsProvided
  | notFound (employee_id : String)
  | internalError (detail : String)
deriving DecidableEq, Repr

/-- The HTTP status code each `HTTPException` is raised with. -/
def ApiError.status_code : ApiError → Nat
  | .conflict _ => 400
  | .noFieldsProvided => 400
  | .notFound _ => 404
  | .internalError _ => 500

/- ### Raw input and pydantic validation -/

/-- An unvalidated create request body. -/
structure RawEmployee where
  employee_id : String
  name : String
  age : Int
  department : String
deriving DecidableEq, Repr

/-- An unvalidated PATCH request body (absent fields are `none`). -/
structure RawEmployeeUpdate where
  name : Option String
  age : Option Int
  department : Option String
deriving DecidableEq, Repr

/-- Characters admitted by the `employee_id` pattern `^[A-Za-z0-9_-]+$`. -/
def isIdChar (c : Char) : Bool :=
  c.isAlphanum || c == '_' || c == '-'

/-- ASCII whitespace as Python's `str.strip()` removes it (Unicode
whitespace beyond ASCII is elided from the model). -/
def isPySpace (c : Char) : Bool :=
  c == ' ' || c == '\t' || c == '\n' || c == '\r' || c == '\x0b' || c == '\x0c'

/-- Python's `value.strip()`: remove leading and trailing whitespace. -/
def pyStrip (s : String) : String :=
  ⟨((s.data.dropWhile isPySpace).reverse.dropWhile isPySpace).reverse⟩

/-- `employee_id` field validation: `min_length=1`, `max_length=50`,
pattern `^[A-Za-z0-9_-]+$`. -/
def validateEmployeeId (s : String) : Option String :=
  if 1 ≤ s.length ∧ s.length ≤ 50 ∧ s.data.all isIdChar = true then some s else none

/-- `name` field validation as pydantic performs it: the `Field`
constraints `min_length=2`/`max_length=100` are checked on the raw string
first, then the `validate_name` field validator (mode `after`) strips
surrounding whitespace and rejects an empty result, returning the cleaned
string. -/
def validateName (s : String) : Option String :=
  if 2 ≤ s.length ∧ s.length ≤ 100 then
    let cleaned := pyStrip s
    if cleaned = "" then none else some cleaned
  else none

/-- `age` field validation: `ge=18`, `le=100`. -/
def validateAge (a : Int) : Option Int :=
  if 18 ≤ a ∧ a ≤ 100 then some a else none

/-- Validate an optional field: an absent field passes untouched, a present
field must pass its validator. -/
def validateOpt (f : α → Option β) : Option α → Option (Option β)
  | none => some none
  | some a => (f a).map some

/-- pydantic validation of an `EmployeeCreate` body: all four fields
required and each validated independently. -/
def validateEmployeeCreate (r : RawEmployee) : Option EmployeeCreate :=
  match validateEmployeeId r.employee_id, validateName r.name,
        validateAge r.age, Department.fromString? r.department with
  | some i, some n, some a, some d => some ⟨i, n, a, d⟩
  | _, _, _, _ => none

/-- pydantic validation of an `EmployeeUpdate` body: every field optional,
present fields validated with the same rules as create. -/
def validateEmployeeUpdate (r : RawEmployeeUpdate) : Option EmployeeUpdate :=
  match validateOpt validateName r.name, validateOpt validateAge r.age,
        validateOpt Department.fromString? r.department with
  | some n, some a, some d => some ⟨n, a, d⟩
  | _, _, _ => none

/- ### Store primitives (`app/database.py` + motor collection calls) -/

/-- `{"_id": 0}` projection / `employee_dict.pop("_id", None)`: the same
document without the internal storage identifier. -/
def stripOid (d : Doc) : Doc :=
  ⟨none, d.employee_id, d.name, d.age, d.department⟩

/-- `db.find_one({"employee_id": id})`: first matching document, with its
internal `_id`. -/
def findOne (docs : List Doc) (id : String) : Option Doc :=
  docs.find? (fun d => d.employee_id == id)

/-- `db.insert_one(employee_dict)` under the unique index on `employee_id`
created by `DatabaseManager.connect`: atomically rejects the insert with
`DuplicateKeyError` when a document with the same `employee_id` exists,
otherwise appends the document with a fresh internal `_id`.  `Except.ok`
carries the assigned `_id` and the new store. -/
def insertOne (s : Store) (e : EmployeeCreate) : Except Unit (Nat × Store) :=
  if s.docs.any (fun d => d.employee_id == e.employee_id) then
    Except.error ()
  else
    Except.ok (s.nextOid,
      ⟨s.docs ++ [⟨some s.nextOid, e.employee_id, e.name, e.age, e.department⟩],
       s.nextOid + 1⟩)

/-- `db.update_one(filter, {"$set": update_data})`: rewrite the first
matching document with `f`, leave everything else untouched. -/
def updateFirst (p : Doc → Bool) (f : Doc → Doc) : List Doc → List Doc
  | [] => []
  | d :: ds => if p d then f d :: ds else d :: updateFirst p f ds

/-- `{"$set": update_data}` applied to one document: present fields
overwrite, absent fields and the untouched `employee_id` and `_id` keep
their stored values. -/
def applySet (d : Doc) (u : EmployeeUpdate) : Doc :=
  ⟨d.oid, d.employee_id, u.name.getD d.name, u.age.getD d.age,
   u.department.getD d.department⟩

/- ### Endpoint handlers (`app/routers/employees.py`) -/

/-- Body of a 201 response from `create_employee`:
`{"message": ..., "data": {"employee": employee_dict}}`. -/
structure CreateResponse where
  message : String
  employee : Doc
deriving DecidableEq, Repr

/-- `POST /employees`: attempt the atomic insert; `DuplicateKeyError`
becomes a 400 conflict, success returns the employee document with the
internal `_id` popped.  The second component is the store after the call. -/
def create_employee (s : Store) (e : EmployeeCreate) :
    Except ApiError CreateResponse × Store :=
  match insertOne s e with
  | Except.error _ => (Except.error (ApiError.conflict e.employee_id), s)
  | Except.ok (_, s') =>
      (Except.ok ⟨"Employee created successfully",
        ⟨none, e.employee_id, e.name, e.age, e.department⟩⟩, s')

/-- Body of a 200 response from `get_all_employees`
(`EmployeeListResponse`). -/
structure ListResponse where
  total_count : Nat
  page : Nat
  limit : Nat
  employees : List Doc
deriving DecidableEq, Repr

/-- The list query filter: `{}` or `{"department": department.value}`. -/
def matchesFilter (dept : Option Department) (d : Doc) : Bool :=
  match dept with
  | none => true
  | some dp => d.department == dp

/-- `GET /employees`: `skip = (page - 1) * limit`,
`total_count = count_documents(query_filter)`, then
`find(query_filter, {"_id": 0}).skip(skip).limit(limit)`. -/
def get_all_employees (s : Store) (page limit : Nat) (dept : Option Department) :
    ListResponse :=
  let matching := s.docs.filter (matchesFilter dept)
  let skip := (page - 1) * limit
  ⟨matching.length, page, limit, ((matching.drop skip).take limit).map stripOid⟩

/-- `GET /employees/{employee_id}`: `find_one({"employee_id": id}, {"_id": 0})`,
404 when absent. -/
def get_employee (s : Store) (id : String) : Except ApiError Doc :=
  match (findOne s.docs id).map stripOid with
  | none => Except.error (ApiError.notFound id)
  | some d => Except.ok d

/-- Body of a 200 response from `update_employee`: `data["employee"]` is the
document re-read after the update (`None` only if it vanished between the
write and the re-read, which cannot happen sequentially). -/
structure UpdateResponse where
  message : String
  employee : Option Doc
deriving DecidableEq, Repr

/-- `PATCH /employees/{employee_id}`: existence check first (404 if
absent), then the `update_data` emptiness check (400 if no field present),
then `update_one` with `$set` and a projected re-read. -/
def update_employee (s : Store) (id : String) (u : EmployeeUpdate) :
    Except ApiError UpdateResponse × Store :=
  match findOne s.docs id with
  | none => (Except.error (ApiError.notFound id), s)
  | some _ =>
    if u.isEmpty then (Except.error ApiError.noFieldsProvided, s)
    else
      let docs' := updateFirst (fun d => d.employee_id == id) (fun d => applySet d u) s.docs
      ((Except.ok ⟨"Employee updated successfully", (findOne docs' id).map stripOid⟩),
       ⟨docs', s.nextOid⟩)

/-- Body of a 200 response from `delete_employee`:
`data = {"deleted_employee_id": employee_id}`. -/
structure DeleteResponse where
  message : String
  deleted_employee_id : String
deriving DecidableEq, Repr

/-- `DELETE /employees/{employee_id}`: existence check (404 if absent),
then `delete_one` removes the first matching document. -/
def delete_employee (s : Store) (id : String) :
    Except ApiError DeleteResponse × Store :=
  match findOne s.docs id with
  | none => (Except.error (ApiError.notFound id), s)
  | some _ =>
      (Except.ok ⟨"Employee deleted successfully", id⟩,
       ⟨s.docs.eraseP (fun d => d.employee_id == id), s.nextOid⟩)

/-- `GET /employees/meta/departments`:
`{"departments": [dept.value for dept in Department]}`. -/
def get_departments : List String :=
  Department.all.map Department.value

/- ### Full request pipeline for PATCH

FastAPI parses and validates the `EmployeeUpdate` request body (pydantic)
before the handler runs; a body that fails validation is rejected with a
422 validation error and `update_employee` is never entered. -/

/-- Outcome of a PATCH request as seen by the client. -/
inductive UpdateRequestResult where
  | validationError
  | apiError (e : ApiError)
  | ok (resp : UpdateResponse)
deriving DecidableEq, Repr

/-- The PATCH pipeline: pydantic body validation first, then the
`update_employee` handler. -/
def update_request (s : Store) (id : String) (r : RawEmployeeUpdate) :
    UpdateRequestResult × Store :=
  match validateEmployeeUpdate r with
  | none => (UpdateRequestResult.validationError, s)
  | some u =>
    match update_employee s id u with
    | (Except.error e, s') => (UpdateRequestResult.apiError e, s')
    | (Except.ok resp, s') => (UpdateRequestResult.ok resp, s')

/- ### Concrete fixtures used for witness instantiations -/

/-- A stored document as the store holds it (internal `_id` assigned). -/
def demoDoc : Doc := ⟨some 0, "EMP001", "Jane", 30, Department.ENGINEERING⟩

/-- A one-document store. -/
def demoStore : Store := ⟨[demoDoc], 1⟩

/-- A validated create body colliding with `demoDoc` on `employee_id`. -/
def demoEmp : EmployeeCreate := ⟨"EMP001", "Jane", 30, Department.ENGINEERING⟩

/-- A validated create body with a fresh `employee_id`. -/
def demoEmp2 : EmployeeCreate := ⟨"EMP002", "Bob Stone", 41, Department.SALES⟩

/-- The raw request body that validates to `demoEmp2`. -/
def demoRaw : RawEmployee := ⟨"EMP002", "  Bob Stone  ", 41, "Sales"⟩

/- ### Helper lemmas -/

theorem validateName_some {s t : String} (h : validateName s = some t) :
    t = pyStrip s ∧ t ≠ "" ∧ 2 ≤ s.length ∧ s.length ≤ 100 := by
  unfold validateName at h
  split at h
  · rename_i hlen
    dsimp only at h
    split at h
    · exact absurd h (by simp)
    · rename_i hne
      cases h
      exact ⟨rfl, hne, hlen.1, hlen.2⟩
  · exact absurd h (by simp)

theorem validateName_isSome (s : String) :
    (validateName s).isSome ↔ 2 ≤ s.length ∧ s.length ≤ 100 ∧ pyStrip s ≠ "" := by
  unfold validateName
  split
  · rename_i hlen
    dsimp only
    split
    · rename_i hnil
      simp [hnil]
    · rename_i hne
      simp [hne, hlen.1, hlen.2]
  · rename_i hlen
    simp only [Option.isSome_none, Bool.false_eq_true, false_iff]
    intro hc
    exact hlen ⟨hc.1, hc.2.1⟩

theorem fromString?_value {s : String} {d : Department}
    (h : Department.fromString? s = some d) : d.value = s := by
  have hp := List.find?_some h
  simpa using hp

theorem validateAge_some {a b : Int} (h : validateAge a = some b) :
    b = a ∧ 18 ≤ a ∧ a ≤ 100 := by
  unfold validateAge at h
  split at h
  · rename_i hr
    cases h
    exact ⟨rfl, hr.1, hr.2⟩
  · exact absurd h (by simp)

theorem validateEmployeeId_some {s t : String} (h : validateEmployeeId s = some t) :
    t = s := by
  unfold validateEmployeeId at h
  split at h
  · cases h; rfl
  · exact absurd h (by simp)

theorem validateEmployeeCreate_fields {r : RawEmployee} {e : EmployeeCreate}
    (h : validateEmployeeCreate r = some e) :
    e.employee_id = r.employee_id ∧ e.name = pyStrip r.name ∧
    e.age = r.age ∧ e.department.value = r.department := by
  unfold validateEmployeeCreate at h
  split at h
  · rename_i i n a dp hi hn ha hd
    cases h
    refine ⟨validateEmployeeId_some hi, ?_, (validateAge_some ha).1, fromString?_value hd⟩
    exact (validateName_some hn).1
  · exact absurd h (by simp)

theorem updateFirst_find? (p : Doc → Bool) (f : Doc → Doc)
    (hf : ∀ d, p d = true → p (f d) = true) (docs : List Doc) :
    List.find? p (updateFirst p f docs) = (List.find? p docs).map f := by
  induction docs with
  | nil => rfl
  | cons d ds ih =>
    by_cases h : p d = true
    · rw [updateFirst, if_pos h, List.find?_cons_of_pos _ (hf d h),
        List.find?_cons_of_pos _ h]
      rfl
    · rw [updateFirst, if_neg (by simpa using h), List.find?_cons_of_neg _ h,
        List.find?_cons_of_neg _ h, ih]

theorem mem_updateFirst_of_ne (p : Doc → Bool) (f : Doc → Doc)
    (hf : ∀ d, p d = true → p (f d) = true) (docs : List Doc) (e : Doc)
    (he : e ∈ updateFirst p f docs) (hne : p e = false) : e ∈ docs := by
  induction docs with
  | nil => simp [updateFirst] at he
  | cons d ds ih =>
    by_cases h : p d = true
    · rw [updateFirst, if_pos h] at he
      rcases List.mem_cons.mp he with rfl | he
      · exact absurd (hf d h) (by simp [hne])
      · exact List.mem_cons_of_mem _ he
    · rw [updateFirst, if_neg (by simpa using h)] at he
      rcases List.mem_cons.mp he with rfl | he
      · exact List.mem_cons_self _ _
      · exact List.mem_cons_of_mem _ (ih he)

theorem create_employee_fresh (s : Store) (e : EmployeeCreate)
    (h : ∀ d ∈ s.docs, d.employee_id ≠ e.employee_id) :
    create_employee s e = (Except.ok ⟨"Employee created successfully",
        Doc.mk none e.employee_id e.name e.age e.department⟩,
        ⟨s.docs ++ [Doc.mk (some s.nextOid) e.employee_id e.name e.age e.department],
         s.nextOid + 1⟩) := by
  have hany : s.docs.any (fun d => d.employee_id == e.employee_id) = false := by
    rw [List.any_eq_false]
    intro d hd
    simpa using h d hd
  have hins : insertOne s e = Except.ok (s.nextOid,
      ⟨s.docs ++ [Doc.mk (some s.nextOid) e.employee_id e.name e.age e.department],
       s.nextOid + 1⟩) := by
    simp [insertOne, hany]
  unfold create_employee
  rw [hins]

/- ### Claim theorems -/

/-- C1: when a create request carries an `employee_id` already in the store,
the unique-constraint insert is rejected atomically and `create_employee`
answers with the 400 conflict (never the 500 internal error), leaving the
store unchanged; when the id is fresh, the insert succeeds, the response
carries the stored record with the internal `_id` stripped, the store gains
exactly the new document, and a second create with the same id then
observes the conflict.  `create_employee` performs no existence check of
its own: the single `insertOne` (the atomic `insert_one` under the unique
index) is its sole interaction with the store. -/
theorem create_conflict_and_strip (s : Store) (e : EmployeeCreate) :
    ((∃ d ∈ s.docs, d.employee_id = e.employee_id) →
      create_employee s e = (Except.error (ApiError.conflict e.employee_id), s) ∧
      (ApiError.conflict e.employee_id).status_code = 400 ∧
      ∀ m, ApiError.conflict e.employee_id ≠ ApiError.internalError m) ∧
    ((∀ d ∈ s.docs, d.employee_id ≠ e.employee_id) →
      (create_employee s e).1 = Except.ok ⟨"Employee created successfully",
          ⟨none, e.employee_id, e.name, e.age, e.department⟩⟩ ∧
      (create_employee s e).2.docs
        = s.docs ++ [⟨some s.nextOid, e.employee_id, e.name, e.age, e.department⟩] ∧
      ∀ e' : EmployeeCreate, e'.employee_id = e.employee_id →
        (create_employee (create_employee s e).2 e').1
          = Except.error (ApiError.conflict e'.employee_id)) := by
  constructor
  · rintro ⟨d, hd, he⟩
    have hany : s.docs.any (fun d => d.employee_id == e.employee_id) = true :=
      List.any_eq_true.mpr ⟨d, hd, by simp [he]⟩
    refine ⟨?_, rfl, by intro m h; cases h⟩
    simp [create_employee, insertOne, hany]
  · intro h
    have hany : s.docs.any (fun d => d.employee_id == e.employee_id) = false := by
      rw [List.any_eq_false]
      intro d hd
      simpa using h d hd
    have hins : insertOne s e = Except.ok (s.nextOid,
        ⟨s.docs ++ [Doc.mk (some s.nextOid) e.employee_id e.name e.age e.department],
         s.nextOid + 1⟩) := by
      simp [insertOne, hany]
    have hcr : create_employee s e = (Except.ok ⟨"Employee created successfully",
        Doc.mk none e.employee_id e.name e.age e.department⟩,
        ⟨s.docs ++ [Doc.mk (some s.nextOid) e.employee_id e.name e.age e.department],
         s.nextOid + 1⟩) := by
      unfold create_employee
      rw [hins]
    refine ⟨by rw [hcr], by rw [hcr], ?_⟩
    intro e' he'
    rw [hcr]
    have hany' : ((s.docs ++ [Doc.mk (some s.nextOid) e.employee_id e.name e.age
        e.department]).any (fun d => d.employee_id == e'.employee_id)) = true := by
      apply List.any_eq_true.mpr
      refine ⟨Doc.mk (some s.nextOid) e.employee_id e.name e.age e.department,
        List.mem_append_right _ ?_, by simp [he']⟩
      exact List.mem_singleton.mpr rfl
    have hins' : insertOne ⟨s.docs ++ [Doc.mk (some s.nextOid) e.employee_id e.name
        e.age e.department], s.nextOid + 1⟩ e' = Except.error () := by
      simp [insertOne, hany']
    simp [create_employee, hins']

/-- C2: for a list request with `page ≥ 1` and `1 ≤ limit ≤ 100` (the
bounds FastAPI enforces on the query parameters), the response window is
the slice of department-matching records from offset `(page - 1) * limit`
of length at most `limit`, `total_count` is the number of all matching
records independent of `page` and `limit`, and a page beyond the data
yields an empty record list with the same `total_count`. -/
theorem list_pagination (s : Store) (page limit : Nat) (dept : Option Department)
    (hp : 1 ≤ page) (hl : 1 ≤ limit) (hl100 : limit ≤ 100) :
    (get_all_employees s page limit dept).total_count
        = (s.docs.filter (matchesFilter dept)).length ∧
    (get_all_employees s page limit dept).employees
        = (((s.docs.filter (matchesFilter dept)).map stripOid).drop
            ((page - 1) * limit)).take limit ∧
    (get_all_employees s page limit dept).employees.length ≤ limit ∧
    ((s.docs.filter (matchesFilter dept)).length ≤ (page - 1) * limit →
      (get_all_employees s page limit dept).employees = []) := by
  refine ⟨rfl, ?_, ?_, ?_⟩
  · simp [get_all_employees, List.map_take, List.map_drop]
  · simp only [get_all_employees, List.length_map, List.length_take]
    exact min_le_left _ _
  · intro h
    have hnil : (s.docs.filter (matchesFilter dept)).drop ((page - 1) * limit) = [] :=
      List.drop_eq_nil_of_le h
    simp [get_all_employees, hnil]

/-- C3: an update of an existing employee whose parsed body contains zero
fields is answered with the dedicated no-fields 400 error — a distinct
outcome, not the 422 body-validation failure — and the store is returned
unchanged: the error is raised before `update_one` runs.  The empty body
`{}` parses successfully (every field optional), reaches the handler, and
produces this outcome through the full request pipeline. -/
theorem update_no_fields (s : Store) (id : String) (u : EmployeeUpdate) (d : Doc)
    (hd : findOne s.docs id = some d) (hu : u.isEmpty = true) :
    update_employee s id u = (Except.error ApiError.noFieldsProvided, s) ∧
    ApiError.noFieldsProvided.status_code = 400 ∧
    update_request s id ⟨none, none, none⟩
      = (UpdateRequestResult.apiError ApiError.noFieldsProvided, s) ∧
    UpdateRequestResult.apiError ApiError.noFieldsProvided
      ≠ UpdateRequestResult.validationError := by
  refine ⟨by simp [update_employee, hd, hu], rfl, ?_, by intro h; cases h⟩
  have hemp : validateEmployeeUpdate ⟨none, none, none⟩
      = some ⟨none, none, none⟩ := rfl
  have hhandler : update_employee s id ⟨none, none, none⟩
      = (Except.error ApiError.noFieldsProvided, s) := by
    simp [update_employee, hd, EmployeeUpdate.isEmpty]
  simp [update_request, hemp, hhandler]

/-- C10: an update request whose parsed body is empty but whose target id
is absent from the store is answered with the 404 not-found error, not the
400 no-fields error: the handler checks existence before it checks that at
least one field is present, and the store is unchanged. -/
theorem update_missing_id_notFound (s : Store) (id : String) (u : EmployeeUpdate)
    (habs : findOne s.docs id = none) (hu : u.isEmpty = true) :
    update_employee s id u = (Except.error (ApiError.notFound id), s) ∧
    (ApiError.notFound id).status_code = 404 ∧
    ApiError.notFound id ≠ ApiError.noFieldsProvided := by
  exact ⟨by simp [update_employee, habs], rfl, by intro h; cases h⟩

/-- C4 counterexample: an update request targeting an id absent from an
empty store but carrying the invalid field value `age = 17` is rejected by
pydantic body validation (FastAPI answers 422 before the handler runs), so
the outcome is the validation error and not the not-found error the claim
requires for a nonexistent id regardless of field validity. -/
theorem update_invalid_body_cex :
    (update_request ⟨[], 0⟩ "EMP404" ⟨none, some 17, none⟩).1
        = UpdateRequestResult.validationError ∧
    (update_request ⟨[], 0⟩ "EMP404" ⟨none, some 17, none⟩).1
        ≠ UpdateRequestResult.apiError (ApiError.notFound "EMP404") := by decide

/-- C4 (amended): body validation runs before the handler, so an update
request whose supplied fields fail validation is answered with a
validation error even when the target id is absent; for every request
whose body passes validation, a nonexistent id is answered with the 404
not-found error (before the no-fields check and before any write), with
the store unchanged. -/
theorem update_validation_then_existence (s : Store) (id : String)
    (r : RawEmployeeUpdate) :
    (∀ u, validateEmployeeUpdate r = some u → findOne s.docs id = none →
      update_request s id r
        = (UpdateRequestResult.apiError (ApiError.notFound id), s)) ∧
    (validateEmployeeUpdate r = none →
      update_request s id r = (UpdateRequestResult.validationError, s)) := by
  constructor
  · intro u hu habs
    have hupd : update_employee s id u = (Except.error (ApiError.notFound id), s) := by
      simp [update_employee, habs]
    simp [update_request, hu, hupd]
  · intro hn
    simp [update_request, hn]

/-- C5 counterexample: the 2-to-100-character length bounds are checked by
pydantic on the raw string before the `validate_name` validator trims it,
so the raw name `" J "` (length 3) passes the bounds and is then trimmed
to `"J"`, an accepted validated name of length 1 — contradicting the claim
that accepted names are 2 to 100 characters measured after trimming. -/
theorem validateName_posttrim_length_cex :
    validateName " J " = some "J" ∧ ¬ 2 ≤ String.length "J" := by decide

/-- C5 (amended): the validated name is the raw input with surrounding
whitespace stripped and validation fails when the stripped result is
empty, but the 2-to-100-character length bounds are applied to the raw
input before stripping (so an accepted name can be shorter than 2
characters after the trim): validation succeeds exactly when the raw
length is within bounds and the stripped string is nonempty. -/
theorem validateName_trims_and_bounds (s : String) :
    (∀ t, validateName s = some t → t = pyStrip s ∧ t ≠ "") ∧
    ((validateName s).isSome ↔ 2 ≤ s.length ∧ s.length ≤ 100 ∧ pyStrip s ≠ "") :=
  ⟨fun _ ht => ⟨(validateName_some ht).1, (validateName_some ht).2.1⟩,
   validateName_isSome s⟩

/-- C6: a successful partial update rewrites only the fields present in
the parsed update set: the stored document keeps its `employee_id` (which
`EmployeeUpdate` cannot even express) and every absent field keeps its
stored value, present fields take the supplied value, documents with other
ids are untouched, and the response carries the full resulting record
re-read from the store (with the internal id projected away). -/
theorem update_partial_frame (s : Store) (id : String) (u : EmployeeUpdate) (d : Doc)
    (hd : findOne s.docs id = some d) (hu : u.isEmpty = false) :
    (update_employee s id u).1
        = Except.ok ⟨"Employee updated successfully", some (stripOid (applySet d u))⟩ ∧
    (applySet d u).employee_id = d.employee_id ∧
    (u.name = none → (applySet d u).name = d.name) ∧
    (u.age = none → (applySet d u).age = d.age) ∧
    (u.department = none → (applySet d u).department = d.department) ∧
    (∀ v, u.name = some v → (applySet d u).name = v) ∧
    (∀ v, u.age = some v → (applySet d u).age = v) ∧
    (∀ v, u.department = some v → (applySet d u).department = v) ∧
    findOne (update_employee s id u).2.docs id = some (applySet d u) ∧
    (∀ x ∈ (update_employee s id u).2.docs, x.employee_id ≠ id → x ∈ s.docs) := by
  have hf : ∀ x : Doc, (x.employee_id == id) = true →
      ((applySet x u).employee_id == id) = true := by
    intro x hx
    simpa [applySet] using hx
  have hfind : findOne (updateFirst (fun x => x.employee_id == id)
      (fun x => applySet x u) s.docs) id = some (applySet d u) := by
    unfold findOne at hd ⊢
    rw [updateFirst_find? _ _ hf, hd]
    rfl
  have hupd : update_employee s id u
      = (Except.ok ⟨"Employee updated successfully", some (stripOid (applySet d u))⟩,
         ⟨updateFirst (fun x => x.employee_id == id) (fun x => applySet x u) s.docs,
          s.nextOid⟩) := by
    unfold update_employee
    rw [hd]
    simp only [hu, Bool.false_eq_true, if_false, hfind]
    rfl
  refine ⟨by rw [hupd], rfl, ?_, ?_, ?_, ?_, ?_, ?_, ?_, ?_⟩
  · intro hv; simp [applySet, hv]
  · intro hv; simp [applySet, hv]
  · intro hv; simp [applySet, hv]
  · intro v hv; simp [applySet, hv]
  · intro v hv; simp [applySet, hv]
  · intro v hv; simp [applySet, hv]
  · rw [hupd]
    exact hfind
  · rw [hupd]
    intro x hx hne
    exact mem_updateFirst_of_ne _ _ hf s.docs x hx (by simpa using hne)

/-- C7: creating a validated employee whose id is not yet in the store
succeeds, and an immediately following get of that id returns a record
agreeing with the raw create request in all four fields, the name in its
stripped form. -/
theorem create_get_roundtrip (s : Store) (raw : RawEmployee) (e : EmployeeCreate)
    (hv : validateEmployeeCreate raw = some e)
    (habs : ∀ d ∈ s.docs, d.employee_id ≠ e.employee_id) :
    (∃ r, (create_employee s e).1 = Except.ok r) ∧
    ∃ d, get_employee (create_employee s e).2 e.employee_id = Except.ok d ∧
      d.employee_id = raw.employee_id ∧ d.name = pyStrip raw.name ∧
      d.age = raw.age ∧ d.department.value = raw.department := by
  obtain ⟨hid, hname, hage, hdep⟩ := validateEmployeeCreate_fields hv
  rw [create_employee_fresh s e habs]
  have hnone : List.find? (fun d => d.employee_id == e.employee_id) s.docs = none :=
    List.find?_eq_none.mpr (fun x hx => by simpa using habs x hx)
  have hfind : findOne (s.docs ++ [Doc.mk (some s.nextOid) e.employee_id e.name
      e.age e.department]) e.employee_id
      = some (Doc.mk (some s.nextOid) e.employee_id e.name e.age e.department) := by
    unfold findOne
    rw [List.find?_append, hnone]
    simp [List.find?]
  refine ⟨⟨_, rfl⟩,
    stripOid (Doc.mk (some s.nextOid) e.employee_id e.name e.age e.department),
    ?_, hid, hname, hage, hdep⟩
  unfold get_employee
  rw [hfind]
  rfl

/-- C8: no success response of any of the five operations carries the
internal storage identifier: the create response pops `_id`, the get, list
and update responses are read with the `{"_id": 0}` projection, and the
delete response carries only a message and the deleted business id. -/
theorem internal_id_never_exposed (s : Store) (e : EmployeeCreate) (id : String)
    (page limit : Nat) (dept : Option Department) (u : EmployeeUpdate) :
    (∀ r, (create_employee s e).1 = Except.ok r → r.employee.oid = none) ∧
    (∀ d, get_employee s id = Except.ok d → d.oid = none) ∧
    (∀ d ∈ (get_all_employees s page limit dept).employees, d.oid = none) ∧
    (∀ r d, (update_employee s id u).1 = Except.ok r → r.employee = some d →
      d.oid = none) ∧
    (∀ r, (delete_employee s id).1 = Except.ok r →
      r = ⟨"Employee deleted successfully", id⟩) := by
  refine ⟨?_, ?_, ?_, ?_, ?_⟩
  · intro r hr
    unfold create_employee at hr
    split at hr
    · cases hr
    · cases hr
      rfl
  · intro d hd
    unfold get_employee at hd
    cases hfo : findOne s.docs id with
    | none => rw [hfo] at hd; cases hd
    | some x =>
        rw [hfo] at hd
        cases hd
        rfl
  · intro d hd
    simp only [get_all_employees] at hd
    obtain ⟨x, _, rfl⟩ := List.mem_map.mp hd
    rfl
  · intro r d hr hd
    unfold update_employee at hr
    split at hr
    · cases hr
    · split at hr
      · cases hr
      · cases hr
        simp only at hd
        cases hfo : findOne (updateFirst (fun x => x.employee_id == id)
            (fun x => applySet x u) s.docs) id with
        | none => rw [hfo] at hd; cases hd
        | some x =>
            rw [hfo] at hd
            cases hd
            rfl
  · intro r hr
    unfold delete_employee at hr
    split at hr
    · cases hr
    · cases hr
      rfl

/-- C9: the department field validates successfully exactly for the ten
fixed labels, any other string fails, and the metadata listing endpoint
returns exactly these ten labels in declaration order. -/
theorem departments_closed_set :
    get_departments = ["Engineering", "Marketing", "Finance", "Human Resources",
        "Sales", "Operations", "Information Technology", "Legal",
        "Customer Service", "Research and Development"] ∧
    ∀ s : String, (Department.fromString? s).isSome ↔ s ∈ get_departments := by
  refine ⟨rfl, ?_⟩
  intro s
  constructor
  · intro h
    obtain ⟨d, hd⟩ := Option.isSome_iff_exists.mp h
    rw [← fromString?_value hd]
    cases d <;> decide
  · intro hs
    unfold get_departments Department.all at hs
    simp only [List.map_cons, List.map_nil, List.mem_cons, List.not_mem_nil,
      or_false] at hs
    rcases hs with rfl | rfl | rfl | rfl | rfl | rfl | rfl | rfl | rfl | rfl <;> decide

/- ### Witnesses -/

/-- Witness for C1 at a concrete store: creating `EMP001` over a store
already holding `EMP001` observes the conflict with the store unchanged;
creating the fresh `EMP002` succeeds with the internal id stripped. -/
theorem create_conflict_and_strip_witness :
    create_employee demoStore demoEmp
      = (Except.error (ApiError.conflict "EMP001"), demoStore) ∧
    (create_employee demoStore demoEmp2).1
      = Except.ok ⟨"Employee created successfully",
          ⟨none, "EMP002", "Bob Stone", 41, Department.SALES⟩⟩ := by
  constructor
  · exact ((create_conflict_and_strip demoStore demoEmp).1
      ⟨demoDoc, by decide, by decide⟩).1
  · exact ((create_conflict_and_strip demoStore demoEmp2).2 (by decide)).1

/-- Witness for C2 at a concrete store: page 4 of a one-record store is
empty while `total_count` still reports the record. -/
theorem list_pagination_witness :
    (get_all_employees demoStore 4 10 none).employees = [] ∧
    (get_all_employees demoStore 4 10 none).total_count = 1 := by
  have h := list_pagination demoStore 4 10 none (by decide) (by decide) (by decide)
  exact ⟨h.2.2.2 (by decide), h.1.trans (by decide)⟩

/-- Witness for C3 at a concrete store: the empty update on the existing
`EMP001` yields the no-fields 400 error and leaves the store unchanged. -/
theorem update_no_fields_witness :
    update_employee demoStore "EMP001" ⟨none, none, none⟩
      = (Except.error ApiError.noFieldsProvided, demoStore) ∧
    ApiError.noFieldsProvided.status_code = 400 := by
  have h := update_no_fields demoStore "EMP001" ⟨none, none, none⟩ demoDoc
    (by decide) rfl
  exact ⟨h.1, h.2.1⟩

/-- Witness for C4 (amended) at a concrete input: a valid one-field body
targeting an absent id is answered with the 404 not-found error. -/
theorem update_validation_then_existence_witness :
    update_request ⟨[], 5⟩ "EMP404" ⟨none, some 44, none⟩
      = (UpdateRequestResult.apiError (ApiError.notFound "EMP404"), ⟨[], 5⟩) :=
  (update_validation_then_existence ⟨[], 5⟩ "EMP404" ⟨none, some 44, none⟩).1
    ⟨none, some 44, none⟩ (by decide) (by decide)

/-- Witness for C5 (amended) at concrete inputs: `"  Jane  "` validates,
its validated form is the stripped `"Jane"`, and `"   "` is rejected. -/
theorem validateName_trims_and_bounds_witness :
    ("Jane" = pyStrip "  Jane  " ∧ "Jane" ≠ "") ∧
    (validateName "  Jane  ").isSome = true ∧
    (validateName "   ").isSome = false := by
  refine ⟨(validateName_trims_and_bounds "  Jane  ").1 "Jane" (by decide),
    (validateName_trims_and_bounds "  Jane  ").2.mpr (by decide), by decide⟩

/-- Witness for C6 at a concrete store: updating only the age of `EMP001`
answers with the full record whose name, department and `employee_id` are
unchanged and whose age is the supplied value. -/
theorem update_partial_frame_witness :
    (update_employee demoStore "EMP001" ⟨none, some 31, none⟩).1
      = Except.ok ⟨"Employee updated successfully",
          some ⟨none, "EMP001", "Jane", 31, Department.ENGINEERING⟩⟩ := by
  have h := update_partial_frame demoStore "EMP001" ⟨none, some 31, none⟩ demoDoc
    (by decide) rfl
  exact h.1

/-- Witness for C7 at a concrete store: creating `EMP002` from the raw
body and reading it back returns the four fields of the request, the name
in stripped form. -/
theorem create_get_roundtrip_witness :
    ∃ d, get_employee (create_employee demoStore demoEmp2).2 "EMP002"
        = Except.ok d ∧
      d.employee_id = "EMP002" ∧ d.name = pyStrip "  Bob Stone  " ∧
      d.age = 41 ∧ d.department.value = "Sales" := by
  have h := create_get_roundtrip demoStore demoRaw demoEmp2 (by decide) (by decide)
  exact h.2

/-- Witness for C8 at a concrete store: the record returned for `EMP001`,
stored with internal id `0`, carries no internal id. -/
theorem internal_id_never_exposed_witness :
    ∃ d, get_employee demoStore "EMP001" = Except.ok d ∧ d.oid = none := by
  have h := internal_id_never_exposed demoStore demoEmp "EMP001" 1 10 none
    ⟨none, none, none⟩
  exact ⟨stripOid demoDoc, rfl, h.2.1 (stripOid demoDoc) rfl⟩

/-- Witness for C9 at concrete strings: `"Engineering"` is accepted and
the misspelt `"Engneering"` is rejected. -/
theorem departments_closed_set_witness :
    (Department.fromString? "Engineering").isSome = true ∧
    (Department.fromString? "Engneering").isSome = false := by
  refine ⟨(departments_closed_set.2 "Engineering").mpr (by decide), by decide⟩

/-- Witness for C10 at a concrete store: the empty update targeting the
absent `EMP009` yields 404, not the no-fields 400. -/
theorem update_missing_id_notFound_witness :
    update_employee ⟨[], 3⟩ "EMP009" ⟨none, none, none⟩
      = (Except.error (ApiError.notFound "EMP009"), ⟨[], 3⟩) ∧
    (ApiError.notFound "EMP009").status_code = 404 := by
  have h := update_missing_id_notFound ⟨[], 3⟩ "EMP009" ⟨none, none, none⟩ rfl rfl
  exact ⟨h.1, h.2.1⟩

end EmployeeApi
